import Mathlib

/-
Verification of the per-pixel filter pipeline and view compositor of the
image-editing repository (src/js/app.js), as a shallow embedding in Lean 4.

Numeric model: the JavaScript code computes with floating-point
intermediates; the embedding uses exact rationals (ℚ) for the
intermediates.  The final write `data[i] = clamp(r, 0, 255)` stores into a
Uint8ClampedArray, whose conversion clamps to [0,255] and rounds to the
nearest integer with ties to even (ECMAScript semantics); this is modelled
by `u8ofQ`.
-/

namespace ImageEditing

/-- One pixel of a PixelBuffer: four 8-bit channels stored as naturals.
The data model's channel-range invariant (each channel ≤ 255) appears as a
hypothesis where a theorem needs it. -/
structure RGBA where
  r : ℕ
  g : ℕ
  b : ℕ
  a : ℕ
deriving DecidableEq

/-- The eight slider values read in applyFilters (src/js/app.js lines
343-351); each is an integer obtained by parseInt on the slider. -/
structure FilterParameters where
  exposure : ℤ
  contrast : ℤ
  highlights : ℤ
  shadows : ℤ
  saturation : ℤ
  temperature : ℤ
  tint : ℤ
  sepia : ℤ
deriving DecidableEq

/-- clamp from src/js/app.js line 75: Math.max(min, Math.min(max, value)). -/
def clamp (value mn mx : ℚ) : ℚ := max mn (min mx value)

/-- exposureValue = parseInt(exposureSlider.value, 10)  (line 343). -/
def exposureValueOf (p : FilterParameters) : ℚ := p.exposure

/-- contrastFactor = ((contrast + 100) / 100), then squared (lines 344-345). -/
def contrastFactorOf (p : FilterParameters) : ℚ :=
  (((p.contrast : ℚ) + 100) / 100) * (((p.contrast : ℚ) + 100) / 100)

/-- highlightValue = parseInt(highlightsSlider.value, 10) / 100  (line 346). -/
def highlightValueOf (p : FilterParameters) : ℚ := (p.highlights : ℚ) / 100

/-- shadowValue = parseInt(shadowsSlider.value, 10) / 100  (line 347). -/
def shadowValueOf (p : FilterParameters) : ℚ := (p.shadows : ℚ) / 100

/-- saturationValue = parseInt(saturationSlider.value, 10) / 100  (line 348). -/
def saturationValueOf (p : FilterParameters) : ℚ := (p.saturation : ℚ) / 100

/-- temperatureValue = parseInt(temperatureSlider.value, 10)  (line 349). -/
def temperatureValueOf (p : FilterParameters) : ℚ := p.temperature

/-- tintValue = parseInt(tintSlider.value, 10)  (line 350). -/
def tintValueOf (p : FilterParameters) : ℚ := p.tint

/-- sepiaValue = parseInt(sepiaSlider.value, 10) / 100  (line 351). -/
def sepiaValueOf (p : FilterParameters) : ℚ := (p.sepia : ℚ) / 100

/-- Exposure step (line 364): c += exposureValue, one channel. -/
def exposureStep (e c : ℚ) : ℚ := c + e

/-- Contrast step (line 365): c = contrastFactor * (c - 128) + 128, one channel. -/
def contrastStep (f c : ℚ) : ℚ := f * (c - 128) + 128

/-- Temperature step (line 366): if temperatureValue > 0 then
r += t*0.6, b -= t*0.4 else r += t*0.4, b -= t*0.6. -/
def temperatureStep (t r b : ℚ) : ℚ × ℚ :=
  if t > 0 then (r + t * 0.6, b - t * 0.4) else (r + t * 0.4, b - t * 0.6)

/-- Tint step (line 367): if tintValue > 0 then g -= t*0.5 else g -= t*0.5.
Both branches of the source's if/else are identical. -/
def tintStep (t g : ℚ) : ℚ :=
  if t > 0 then g - t * 0.5 else g - t * 0.5

/-- Saturation step (line 368): gray = 0.299r + 0.587g + 0.114b,
satFactor = 1.0 + saturationValue, c = gray + (c - gray) * satFactor. -/
def saturationStep (s r g b : ℚ) : ℚ × ℚ × ℚ :=
  let gray := 0.299 * r + 0.587 * g + 0.114 * b
  let satFactor := 1.0 + s
  (gray + (r - gray) * satFactor,
   gray + (g - gray) * satFactor,
   gray + (b - gray) * satFactor)

/-- Highlights/shadows step (line 369): brightness = clamp((r+g+b)/765,0,1);
if highlightValue ≠ 0 add highlightValue*brightness*255 to all channels;
if shadowValue ≠ 0 add shadowValue*(1-brightness)*255 to all channels. -/
def hsStep (hv sv r g b : ℚ) : ℚ × ℚ × ℚ :=
  let brightness := clamp ((r + g + b) / 765) 0 1
  let p1 : ℚ × ℚ × ℚ :=
    if hv ≠ 0 then
      let ha := hv * brightness * 255
      (r + ha, g + ha, b + ha)
    else (r, g, b)
  if sv ≠ 0 then
    let sa := sv * (1 - brightness) * 255
    (p1.1 + sa, p1.2.1 + sa, p1.2.2 + sa)
  else p1

/-- Sepia step (line 370): if sepiaValue > 0 blend toward the sepia matrix:
sr = r*0.393 + g*0.769 + b*0.189, sg = r*0.349 + g*0.686 + b*0.168,
sb = r*0.272 + g*0.534 + b*0.131, c = (1 - sepiaValue)*c + sepiaValue*sc. -/
def sepiaStep (s r g b : ℚ) : ℚ × ℚ × ℚ :=
  if s > 0 then
    let sr := r * 0.393 + g * 0.769 + b * 0.189
    let sg := r * 0.349 + g * 0.686 + b * 0.168
    let sb := r * 0.272 + g * 0.534 + b * 0.131
    ((1 - s) * r + s * sr, (1 - s) * g + s * sg, (1 - s) * b + s * sb)
  else (r, g, b)

/-- The full per-pixel sequence of applyFilters (lines 364-370), applied to
the rational intermediates of one pixel; no clamping occurs inside it. -/
def applyPixel (p : FilterParameters) (r0 g0 b0 : ℚ) : ℚ × ℚ × ℚ :=
  let r1 := exposureStep (exposureValueOf p) r0
  let g1 := exposureStep (exposureValueOf p) g0
  let b1 := exposureStep (exposureValueOf p) b0
  let r2 := contrastStep (contrastFactorOf p) r1
  let g2 := contrastStep (contrastFactorOf p) g1
  let b2 := contrastStep (contrastFactorOf p) b1
  let rb := temperatureStep (temperatureValueOf p) r2 b2
  let g3 := tintStep (tintValueOf p) g2
  let s4 := saturationStep (saturationValueOf p) rb.1 g3 rb.2
  let s5 := hsStep (highlightValueOf p) (shadowValueOf p) s4.1 s4.2.1 s4.2.2
  sepiaStep (sepiaValueOf p) s5.1 s5.2.1 s5.2.2

/-- Round to the nearest integer, ties to even: the conversion a
Uint8ClampedArray element store performs after clamping (ECMAScript
ToUint8Clamp). -/
def roundTiesToEven (q : ℚ) : ℤ :=
  let n := ⌊q⌋
  let frac := q - n
  if frac < 1 / 2 then n
  else if 1 / 2 < frac then n + 1
  else if n % 2 = 0 then n else n + 1

/-- The final store of one channel (line 372): data[i] = clamp(c, 0, 255),
where the Uint8ClampedArray store rounds ties-to-even. -/
def u8ofQ (q : ℚ) : ℕ := (roundTiesToEven (clamp q 0 255)).toNat

/-- One loop iteration of applyFilters (lines 360-373) on one pixel: run the
per-pixel sequence on r, g, b, clamp-and-store each, leave alpha untouched
(data[i+3] is never written). -/
def applyFiltersPixel (p : FilterParameters) (px : RGBA) : RGBA :=
  ⟨u8ofQ (applyPixel p px.r px.g px.b).1,
   u8ofQ (applyPixel p px.r px.g px.b).2.1,
   u8ofQ (applyPixel p px.r px.g px.b).2.2,
   px.a⟩

/-- applyFilters' pixel loop (lines 360-373) over a whole buffer, the
buffer being the RGBA quadruples of the pixel array in order. -/
def applyFilters (p : FilterParameters) (buf : List RGBA) : List RGBA :=
  buf.map (applyFiltersPixel p)

/-- The all-zero FilterParameters: every slider at its default 0. -/
def zeroParams : FilterParameters := ⟨0, 0, 0, 0, 0, 0, 0, 0⟩

/-- FilterParameters with every slider 0 except contrast = 100. -/
def contrastParams : FilterParameters := ⟨0, 100, 0, 0, 0, 0, 0, 0⟩

/-- FilterParameters with every slider 0 except saturation = -100. -/
def satParams : FilterParameters := ⟨0, 0, 0, 0, -100, 0, 0, 0⟩

/-- FilterParameters with every slider 0 except tint = t. -/
def tintOnly (t : ℤ) : FilterParameters := ⟨0, 0, 0, 0, 0, 0, t, 0⟩

/-- The weighted gray (luma) of line 368: 0.299r + 0.587g + 0.114b. -/
def lumaQ (r g b : ℚ) : ℚ := 0.299 * r + 0.587 * g + 0.114 * b

/-- A pixel buffer is valid when every channel fits in 8 bits. -/
def ValidBuf (buf : List RGBA) : Prop :=
  ∀ px ∈ buf, px.r ≤ 255 ∧ px.g ≤ 255 ∧ px.b ≤ 255

instance : DecidablePred ValidBuf := fun buf =>
  inferInstanceAs (Decidable (∀ px ∈ buf, _))

theorem clamp_of_mem {q : ℚ} (h0 : 0 ≤ q) (h1 : q ≤ 255) : clamp q 0 255 = q := by
  unfold clamp
  rw [min_eq_right h1, max_eq_right h0]

theorem rte_intCast (m : ℤ) : roundTiesToEven (m : ℚ) = m := by
  simp only [roundTiesToEven, Int.floor_intCast, sub_self]
  norm_num

theorem rte_nonneg {q : ℚ} (h : 0 ≤ q) : 0 ≤ roundTiesToEven q := by
  simp only [roundTiesToEven]
  have h0 : 0 ≤ ⌊q⌋ := Int.floor_nonneg.mpr h
  split_ifs <;> omega

theorem rte_le_255 {q : ℚ} (h : q ≤ 255) : roundTiesToEven q ≤ 255 := by
  simp only [roundTiesToEven]
  have hfl : (⌊q⌋ : ℚ) ≤ q := Int.floor_le q
  have hle : ⌊q⌋ ≤ 255 := by
    have : (⌊q⌋ : ℚ) ≤ 255 := le_trans hfl h
    exact_mod_cast this
  split_ifs with h1 h2 h3
  · exact hle
  · have hq : (⌊q⌋ : ℚ) < 255 := by linarith
    have : ⌊q⌋ < 255 := by exact_mod_cast hq
    omega
  · exact hle
  · have hq : (⌊q⌋ : ℚ) < 255 := by linarith
    have : ⌊q⌋ < 255 := by exact_mod_cast hq
    omega

theorem u8ofQ_le (q : ℚ) : u8ofQ q ≤ 255 := by
  unfold u8ofQ
  have h1 : clamp q 0 255 ≤ 255 := max_le (by norm_num) (min_le_left _ _)
  have h2 : roundTiesToEven (clamp q 0 255) ≤ 255 := rte_le_255 h1
  omega

theorem u8ofQ_natCast {n : ℕ} (h : n ≤ 255) : u8ofQ (n : ℚ) = n := by
  unfold u8ofQ
  have h0 : (0 : ℚ) ≤ (n : ℚ) := Nat.cast_nonneg n
  have h255 : (n : ℚ) ≤ 255 := by exact_mod_cast h
  rw [clamp_of_mem h0 h255]
  have : roundTiesToEven ((n : ℤ) : ℚ) = (n : ℤ) := rte_intCast n
  rw [show ((n : ℕ) : ℚ) = ((n : ℤ) : ℚ) by push_cast; ring, this]
  omega

theorem exposureStep_zero (c : ℚ) : exposureStep 0 c = c := by
  simp [exposureStep]

theorem contrastStep_one (c : ℚ) : contrastStep 1 c = c := by
  unfold contrastStep
  ring

theorem temperatureStep_zero (r b : ℚ) : temperatureStep 0 r b = (r, b) := by
  norm_num [temperatureStep]

theorem tintStep_eq (t g : ℚ) : tintStep t g = g - t * 0.5 := by
  unfold tintStep
  split_ifs <;> ring

theorem saturationStep_zero (r g b : ℚ) : saturationStep 0 r g b = (r, g, b) := by
  simp only [saturationStep, Prod.mk.injEq]
  norm_num

theorem saturationStep_neg_one (r g b : ℚ) :
    saturationStep (-1) r g b = (lumaQ r g b, lumaQ r g b, lumaQ r g b) := by
  simp only [saturationStep, lumaQ, Prod.mk.injEq]
  norm_num

theorem hsStep_zero (r g b : ℚ) : hsStep 0 0 r g b = (r, g, b) := by
  simp [hsStep]

theorem sepiaStep_zero (r g b : ℚ) : sepiaStep 0 r g b = (r, g, b) := by
  norm_num [sepiaStep]

theorem contrastFactorOf_zero : contrastFactorOf zeroParams = 1 := by
  norm_num [contrastFactorOf, zeroParams]

theorem applyPixel_zero (r g b : ℚ) : applyPixel zeroParams r g b = (r, g, b) := by
  simp only [applyPixel, exposureValueOf, highlightValueOf, shadowValueOf,
    saturationValueOf, temperatureValueOf, tintValueOf, sepiaValueOf, contrastFactorOf,
    zeroParams]
  norm_num [exposureStep_zero, contrastStep_one, temperatureStep_zero, tintStep_eq,
    saturationStep_zero, hsStep_zero, sepiaStep_zero]

theorem applyFiltersPixel_zero (px : RGBA) (hr : px.r ≤ 255) (hg : px.g ≤ 255)
    (hb : px.b ≤ 255) : applyFiltersPixel zeroParams px = px := by
  cases px with
  | mk r g b a =>
    simp only [applyFiltersPixel, applyPixel_zero]
    simp only at hr hg hb
    rw [u8ofQ_natCast hr, u8ofQ_natCast hg, u8ofQ_natCast hb]

/-- C1: applying the filter pipeline with the all-zero FilterParameters to any
valid PixelBuffer (all channels 8-bit) returns the buffer unchanged,
integer-for-integer at every channel of every pixel. -/
theorem identity_law_C1 (buf : List RGBA) (hv : ValidBuf buf) :
    applyFilters zeroParams buf = buf := by
  unfold applyFilters
  induction buf with
  | nil => rfl
  | cons x xs ih =>
    have hx := hv x (by simp)
    have hxs : ValidBuf xs := fun px hm => hv px (by simp [hm])
    simp only [List.map_cons]
    rw [applyFiltersPixel_zero x hx.1 hx.2.1 hx.2.2]
    rw [show xs.map (applyFiltersPixel zeroParams) = xs from ih hxs]

/-- Witness for C1 at a concrete buffer. -/
theorem identity_law_C1_witness :
    applyFilters zeroParams
      (⟨10, 20, 30, 40⟩ :: ⟨0, 128, 255, 7⟩ :: []) =
      ⟨10, 20, 30, 40⟩ :: ⟨0, 128, 255, 7⟩ :: [] :=
  identity_law_C1 (⟨10, 20, 30, 40⟩ :: ⟨0, 128, 255, 7⟩ :: []) (by decide)

/-- C2: for every input buffer and every FilterParameters value, every R, G
and B channel of the output lies in [0,255] (channels are naturals, so the
lower bound is by type; the final clamp-and-store bounds them above). -/
theorem range_clamp_C2 (p : FilterParameters) (buf : List RGBA) (px : RGBA)
    (hmem : px ∈ applyFilters p buf) :
    px.r ≤ 255 ∧ px.g ≤ 255 ∧ px.b ≤ 255 := by
  unfold applyFilters at hmem
  obtain ⟨y, hy, rfl⟩ := List.mem_map.mp hmem
  exact ⟨u8ofQ_le _, u8ofQ_le _, u8ofQ_le _⟩

/-- Witness for C2 at a concrete parameter set and pixel. -/
theorem range_clamp_C2_witness :
    (applyFiltersPixel contrastParams ⟨200, 3, 7, 5⟩).r ≤ 255 ∧
    (applyFiltersPixel contrastParams ⟨200, 3, 7, 5⟩).g ≤ 255 ∧
    (applyFiltersPixel contrastParams ⟨200, 3, 7, 5⟩).b ≤ 255 :=
  range_clamp_C2 contrastParams (⟨200, 3, 7, 5⟩ :: [])
    (applyFiltersPixel contrastParams ⟨200, 3, 7, 5⟩) (by simp [applyFilters])

/-- C3: for every input buffer and every FilterParameters value, the alpha
channel of the output at every pixel equals the input's alpha at that pixel;
the loop never writes data[i+3]. -/
theorem alpha_preservation_C3 (p : FilterParameters) (buf : List RGBA) :
    (applyFilters p buf).map RGBA.a = buf.map RGBA.a := by
  unfold applyFilters
  rw [List.map_map]
  rfl

theorem lumaQ_nonneg (r g b : ℕ) : 0 ≤ lumaQ (r : ℚ) (g : ℚ) (b : ℚ) := by
  unfold lumaQ
  positivity

theorem lumaQ_le_255 {r g b : ℕ} (hr : r ≤ 255) (hg : g ≤ 255) (hb : b ≤ 255) :
    lumaQ (r : ℚ) (g : ℚ) (b : ℚ) ≤ 255 := by
  have hr' : (r : ℚ) ≤ 255 := by exact_mod_cast hr
  have hg' : (g : ℚ) ≤ 255 := by exact_mod_cast hg
  have hb' : (b : ℚ) ≤ 255 := by exact_mod_cast hb
  unfold lumaQ
  linarith

theorem applyPixel_sat (r g b : ℚ) :
    applyPixel satParams r g b = (lumaQ r g b, lumaQ r g b, lumaQ r g b) := by
  simp only [applyPixel, exposureValueOf, highlightValueOf, shadowValueOf,
    saturationValueOf, temperatureValueOf, tintValueOf, sepiaValueOf, contrastFactorOf,
    satParams]
  norm_num [exposureStep_zero, contrastStep_one, temperatureStep_zero, tintStep_eq,
    saturationStep_neg_one, hsStep_zero, sepiaStep_zero]

/-- C4: with saturation = -100 (satFactor = 0) and all other sliders 0, the
output at every pixel of a valid buffer is pure grayscale: all three
channels equal the rounded luma 0.299r + 0.587g + 0.114b of that pixel's
pre-saturation (here: original) values; alpha is kept. -/
theorem saturation_extreme_C4 (buf : List RGBA) (hv : ValidBuf buf) :
    applyFilters satParams buf =
      buf.map (fun px =>
        ⟨(roundTiesToEven (lumaQ px.r px.g px.b)).toNat,
         (roundTiesToEven (lumaQ px.r px.g px.b)).toNat,
         (roundTiesToEven (lumaQ px.r px.g px.b)).toNat, px.a⟩) := by
  unfold applyFilters
  induction buf with
  | nil => rfl
  | cons x xs ih =>
    have hx := hv x (by simp)
    have hxs : ValidBuf xs := fun px hm => hv px (by simp [hm])
    simp only [List.map_cons]
    rw [ih hxs]
    congr 1
    cases x with
    | mk r g b a =>
      simp only [applyFiltersPixel, applyPixel_sat]
      simp only at hx
      unfold u8ofQ
      rw [clamp_of_mem (lumaQ_nonneg r g b) (lumaQ_le_255 hx.1 hx.2.1 hx.2.2)]

/-- Witness for C4 at a concrete buffer. -/
theorem saturation_extreme_C4_witness :
    applyFilters satParams (⟨255, 0, 0, 9⟩ :: []) =
      ((⟨255, 0, 0, 9⟩ : RGBA) :: []).map (fun px =>
        ⟨(roundTiesToEven (lumaQ px.r px.g px.b)).toNat,
         (roundTiesToEven (lumaQ px.r px.g px.b)).toNat,
         (roundTiesToEven (lumaQ px.r px.g px.b)).toNat, px.a⟩) :=
  saturation_extreme_C4 (⟨255, 0, 0, 9⟩ :: []) (by decide)

/-- C5: on the single red pixel (255,0,0,255) with all sliders 0 except
contrast = 100, the squared contrast factor is 4 and the output pixel is
(255,0,0,255); the only clamp is the final one, applied after the full
per-pixel sequence (applyPixel contains no clamping). -/
theorem contrast_scenario_C5 :
    contrastFactorOf contrastParams = 4 ∧
    applyFilters contrastParams (⟨255, 0, 0, 255⟩ :: []) = ⟨255, 0, 0, 255⟩ :: [] := by
  constructor
  · norm_num [contrastFactorOf, contrastParams]
  · simp only [applyFilters, List.map, applyFiltersPixel, applyPixel, exposureStep,
      contrastStep, temperatureStep, tintStep, saturationStep, hsStep, sepiaStep,
      exposureValueOf, contrastFactorOf, temperatureValueOf, tintValueOf, saturationValueOf,
      highlightValueOf, shadowValueOf, sepiaValueOf, contrastParams, u8ofQ, clamp,
      roundTiesToEven]
    norm_num
    rfl

/-- C6: the tint step subtracts 0.5 × tint from the green channel for every
tint value, identically in both sign branches of the source's if/else, and
with only tint set the whole per-pixel pipeline changes green by exactly
-0.5 × tint and leaves red and blue unchanged. -/
theorem tint_symmetry_C6 (t : ℚ) (ti : ℤ) (r g b : ℚ) :
    tintStep t g = g - 0.5 * t ∧
    applyPixel (tintOnly ti) r g b = (r, g - 0.5 * (ti : ℚ), b) := by
  constructor
  · rw [tintStep_eq]; ring
  · simp only [applyPixel, exposureValueOf, highlightValueOf, shadowValueOf,
      saturationValueOf, temperatureValueOf, tintValueOf, sepiaValueOf, contrastFactorOf,
      tintOnly]
    norm_num [exposureStep_zero, contrastStep_one, temperatureStep_zero, tintStep_eq,
      saturationStep_zero, hsStep_zero, sepiaStep_zero]
    ring_nf

/-- The three view modes of currentViewMode (line 42): 'before', 'after',
'split'. -/
inductive ViewMode
| before
| after
| split
deriving DecidableEq

/-- A canvas with its pixel contents, as read by drawImage: a width, a
height, and the pixel at each in-bounds coordinate. -/
structure Canvas where
  width : ℕ
  height : ℕ
  pix : ℕ → ℕ → RGBA

/-- halfWidth = Math.floor(w / 2) of the split branch (line 445). -/
def splitHalfWidth (w : ℕ) : ℕ := w / 2

/-- The x coordinate of the split dividing line: the stroke runs from
(halfWidth, 0) to (halfWidth, h) (line 456). -/
def splitLineX (w : ℕ) : ℕ := splitHalfWidth w

/-- One pixel of the frame the split branch of updateMainCanvasView (lines
444-449) paints on the main canvas of size w × h: after clearRect, columns
left of halfWidth come from the hidden Before canvas and the rest from the
hidden After canvas, each drawImage call clipped to its source canvas's
bounds (HTML canvas drawImage semantics; the two rectangles here are
unscaled); a coordinate no source covers stays cleared (none).  The code
performs no dimension check on the two sources. -/
def splitFrame (bef aft : Canvas) (w h x y : ℕ) : Option RGBA :=
  if x < w ∧ y < h then
    if x < splitHalfWidth w then
      if x < bef.width ∧ y < bef.height then some (bef.pix x y) else none
    else
      if x < aft.width ∧ y < aft.height then some (aft.pix x y) else none
  else none

/-- C7: in Split mode the boundary sits at floor(W/2): for W = 101 the left
region (columns 0..49, width 50) comes from the Before canvas and the right
region (columns 50..100, width 51) from the After canvas; for W = 100 both
halves have width 50; the dividing line is drawn at x = floor(W/2). -/
theorem split_boundary_C7 (bef aft : Canvas) (h x y : ℕ)
    (hbw : bef.width = 101) (haw : aft.width = 101)
    (hbh : h ≤ bef.height) (hah : h ≤ aft.height)
    (hx : x < 101) (hy : y < h) :
    splitHalfWidth 101 = 50 ∧ 101 - splitHalfWidth 101 = 51 ∧
    splitHalfWidth 100 = 50 ∧ 100 - splitHalfWidth 100 = 50 ∧
    splitLineX 101 = 50 ∧
    splitFrame bef aft 101 h x y =
      some (if x < 50 then bef.pix x y else aft.pix x y) := by
  refine ⟨rfl, rfl, rfl, rfl, rfl, ?_⟩
  unfold splitFrame splitHalfWidth
  rw [if_pos ⟨hx, hy⟩]
  by_cases hhalf : x < 50
  · rw [if_pos (by omega : x < 101 / 2), if_pos ⟨by omega, by omega⟩, if_pos hhalf]
  · rw [if_neg (by omega : ¬ x < 101 / 2), if_pos ⟨by omega, by omega⟩, if_neg hhalf]

/-- Witness for C7 at concrete canvases of width 101. -/
theorem split_boundary_C7_witness :
    splitHalfWidth 101 = 50 ∧ 101 - splitHalfWidth 101 = 51 ∧
    splitHalfWidth 100 = 50 ∧ 100 - splitHalfWidth 100 = 50 ∧
    splitLineX 101 = 50 ∧
    splitFrame (Canvas.mk 101 1 fun _ _ => ⟨1, 1, 1, 1⟩)
        (Canvas.mk 101 1 fun _ _ => ⟨2, 2, 2, 2⟩) 101 1 60 0 =
      some (if 60 < 50 then (⟨1, 1, 1, 1⟩ : RGBA) else ⟨2, 2, 2, 2⟩) :=
  split_boundary_C7 (Canvas.mk 101 1 fun _ _ => ⟨1, 1, 1, 1⟩)
    (Canvas.mk 101 1 fun _ _ => ⟨2, 2, 2, 2⟩) 1 60 0
    rfl rfl (by decide) (by decide) (by decide) (by decide)

/-- Concrete Before canvas (2 × 1) for the C9 counterexample. -/
def cexBefore : Canvas := ⟨2, 1, fun _ _ => ⟨9, 9, 9, 9⟩⟩

/-- Concrete After canvas (1 × 1, mismatched width) for the C9
counterexample. -/
def cexAfter : Canvas := ⟨1, 1, fun _ _ => ⟨7, 7, 7, 7⟩⟩

/-- Counterexample to C9 as stated: with original 2×1 and filtered 1×1 the
Split-mode draw does not fail — it presents a frame whose left column holds
the original's pixel while the right column (outside the filtered canvas) is
blank, i.e. a frame containing material from only one of the two halves. -/
theorem dimension_mismatch_C9_cex :
    cexBefore.width ≠ cexAfter.width ∧
    splitFrame cexBefore cexAfter 2 1 0 0 = some ⟨9, 9, 9, 9⟩ ∧
    splitFrame cexBefore cexAfter 2 1 1 0 = none := by
  refine ⟨by decide, ?_, ?_⟩ <;> rfl

/-- C9 amended: updateMainCanvasView performs no dimension check, so a
Split-mode call on buffers of differing dimensions does not fail as a
whole: composition proceeds, every left-half coordinate inside the Before
canvas still shows the original pixel, and right-half coordinates beyond
the After canvas's width are left blank — a partially composited frame is
presented. -/
theorem dimension_mismatch_C9 (bef aft : Canvas) (w h x y u v : ℕ)
    (_hmis : bef.width ≠ aft.width)
    (hx : x < splitHalfWidth w) (hy : y < h)
    (hxb : x < bef.width) (hyb : y < bef.height)
    (hu1 : splitHalfWidth w ≤ u) (hu2 : u < w) (hu3 : aft.width ≤ u) (hv : v < h) :
    splitFrame bef aft w h x y = some (bef.pix x y) ∧
    splitFrame bef aft w h u v = none := by
  constructor
  · unfold splitFrame
    rw [if_pos ⟨by omega, hy⟩, if_pos hx, if_pos ⟨hxb, hyb⟩]
  · unfold splitFrame
    rw [if_pos ⟨hu2, hv⟩, if_neg (by omega : ¬ u < splitHalfWidth w),
      if_neg (by omega : ¬ (u < aft.width ∧ v < aft.height))]

/-- Witness for the amended C9 at the concrete mismatched canvases. -/
theorem dimension_mismatch_C9_witness :
    splitFrame cexBefore cexAfter 2 1 0 0 = some (cexBefore.pix 0 0) ∧
    splitFrame cexBefore cexAfter 2 1 1 0 = none :=
  dimension_mismatch_C9 cexBefore cexAfter 2 1 0 0 1 0
    (by decide) (by decide) (by decide) (by decide) (by decide)
    (by decide) (by decide) (by decide) (by decide)

/-- The mutable editor state the handlers close over (lines 40-43 and the
hidden canvases): whether originalImage is non-null, the stored
originalImageData, the contents of the hidden After canvas, currentViewMode,
and the slider positions. -/
structure EditorState where
  hasOriginalImage : Bool
  originalImageData : Option (List RGBA)
  afterCanvas : Option (List RGBA)
  viewMode : ViewMode
  sliders : FilterParameters
deriving DecidableEq

/-- setViewMode (lines 392-403): unconditionally stores the mode in
currentViewMode (the rest of the function only restyles buttons). -/
def setViewMode (m : ViewMode) (s : EditorState) : EditorState :=
  { s with viewMode := m }

/-- The applyFilters handler (lines 334-382) as a state transition: if
originalImage or originalImageData is missing it returns at once (line
336-339); otherwise it recomputes the After canvas from the original pixels
and the current slider values.  currentViewMode is never touched. -/
def applyFiltersHandler (s : EditorState) : EditorState :=
  match s.hasOriginalImage, s.originalImageData with
  | true, some d => { s with afterCanvas := some (applyFilters s.sliders d) }
  | _, _ => s

/-- handleViewChange (lines 410-415): if no image is loaded it returns at
once; otherwise it calls setViewMode with the requested mode. -/
def handleViewChange (m : ViewMode) (s : EditorState) : EditorState :=
  match s.hasOriginalImage, s.originalImageData with
  | true, some _ => setViewMode m s
  | _, _ => s

/-- handleReset (lines 267-283): if no image is loaded it returns at once;
otherwise it resets the sliders and redraws the original image onto the
hidden After canvas.  currentViewMode is never touched. -/
def handleReset (s : EditorState) : EditorState :=
  match s.hasOriginalImage, s.originalImageData with
  | true, some d => { s with sliders := zeroParams, afterCanvas := some d }
  | _, _ => s

/-- The success path of handleImageUpload (lines 209-240) for a decoded
image img: it stores the image, draws it on both hidden canvases, resets
the sliders, and calls setViewMode with the literal 'after' (line 237) —
regardless of the previous state. -/
def handleImageUpload (img : List RGBA) (_s : EditorState) : EditorState :=
  { hasOriginalImage := true
    originalImageData := some img
    afterCanvas := some img
    viewMode := ViewMode.after
    sliders := zeroParams }

/-- A concrete state with an image loaded and view mode Before. -/
def preloadState : EditorState :=
  ⟨true, some (⟨1, 2, 3, 4⟩ :: []), some (⟨1, 2, 3, 4⟩ :: []), ViewMode.before, zeroParams⟩

/-- Counterexample to C8 as stated: loading a new image while the view mode
is Before changes the view mode (handleImageUpload calls setViewMode with
'after' on line 237), so the mode does not persist across image reloads. -/
theorem viewmode_persistence_C8_cex :
    (handleImageUpload (⟨5, 5, 5, 5⟩ :: []) preloadState).viewMode ≠
      preloadState.viewMode := by
  decide

/-- C8 amended: the view mode persists across filter re-application and
across filter reset, and handleViewChange sets exactly the selected mode;
but loading a new image does change it, resetting it to 'after' (Filtered),
the default. -/
theorem viewmode_persistence_C8 (s : EditorState) (img : List RGBA) (m : ViewMode)
    (himg : s.hasOriginalImage = true) (hdata : s.originalImageData.isSome) :
    (applyFiltersHandler s).viewMode = s.viewMode ∧
    (handleReset s).viewMode = s.viewMode ∧
    (handleViewChange m s).viewMode = m ∧
    (handleImageUpload img s).viewMode = ViewMode.after := by
  obtain ⟨d, hd⟩ := Option.isSome_iff_exists.mp hdata
  refine ⟨?_, ?_, ?_, rfl⟩
  · unfold applyFiltersHandler
    rw [himg, hd]
  · unfold handleReset
    rw [himg, hd]
  · unfold handleViewChange setViewMode
    rw [himg, hd]

/-- Witness for the amended C8 at a concrete loaded state. -/
theorem viewmode_persistence_C8_witness :
    (applyFiltersHandler preloadState).viewMode = preloadState.viewMode ∧
    (handleReset preloadState).viewMode = preloadState.viewMode ∧
    (handleViewChange ViewMode.split preloadState).viewMode = ViewMode.split ∧
    (handleImageUpload (⟨5, 5, 5, 5⟩ :: []) preloadState).viewMode = ViewMode.after :=
  viewmode_persistence_C8 preloadState (⟨5, 5, 5, 5⟩ :: []) ViewMode.split rfl rfl

/-- C10: when no image session exists (originalImage null or
originalImageData null), the filter-application, view-change and reset
handlers all return immediately: the whole editor state — After canvas,
view mode, sliders — is left unchanged, and no error is raised (the
transitions are total). -/
theorem noop_guard_C10 (s : EditorState) (m : ViewMode)
    (hnone : s.hasOriginalImage = false ∨ s.originalImageData = none) :
    applyFiltersHandler s = s ∧ handleViewChange m s = s ∧ handleReset s = s := by
  rcases hnone with h | h
  · refine ⟨?_, ?_, ?_⟩
    · unfold applyFiltersHandler; rw [h]
    · unfold handleViewChange; rw [h]
    · unfold handleReset; rw [h]
  · refine ⟨?_, ?_, ?_⟩
    · unfold applyFiltersHandler; rw [h]; cases s.hasOriginalImage <;> rfl
    · unfold handleViewChange; rw [h]; cases s.hasOriginalImage <;> rfl
    · unfold handleReset; rw [h]; cases s.hasOriginalImage <;> rfl

/-- A concrete state with no image loaded. -/
def emptyState : EditorState := ⟨false, none, none, ViewMode.after, zeroParams⟩

/-- Witness for C10 at a concrete empty state. -/
theorem noop_guard_C10_witness :
    applyFiltersHandler emptyState = emptyState ∧
    handleViewChange ViewMode.before emptyState = emptyState ∧
    handleReset emptyState = emptyState :=
  noop_guard_C10 emptyState ViewMode.before (Or.inl rfl)

end ImageEditing
